import Mathlib

/-!
Shallow embedding of the document ingestion and task-dispatch pipeline of
`app.py` (class `DocumentProcessor` and the dispatch portion of `main`).

External collaborators (the parsing libraries pdfplumber / python-docx /
python-pptx / pandas, the UTF-8 decoder, and the Groq LLM client) are
modelled as oracles: each one either returns a text (`Except.ok`) or raises
an exception carrying a message (`Except.error`).  Wall-clock timing
(`processing_time` in the source) is not modelled.
-/

namespace App

/-- An uploaded file as received by the pipeline: its name, its declared
media type (`file.type` in the source), its raw bytes (`file.getvalue()`),
and the behavior of each external parser on this particular file.  Each
parser field is the outcome the corresponding library call would have:
`Except.ok t` when it returns text `t`, `Except.error e` when it raises an
exception whose message is `e`. -/
structure UpFile where
  name : String
  type : String
  bytes : List Nat
  pdfExtract : Except String String
  docxExtract : Except String String
  pptxExtract : Except String String
  xlsxExtract : Except String String
  utf8Decode : Except String String

def mimePdf : String := "application/pdf"

def mimeDocx : String :=
  "application/vnd.openxmlformats-officedocument.wordprocessingml.document"

def mimePptx : String :=
  "application/vnd.openxmlformats-officedocument.presentationml.presentation"

def mimeXlsx : String :=
  "application/vnd.openxmlformats-officedocument.spreadsheetml.sheet"

def mimeText : String := "text/plain"

def mimeOctet : String := "application/octet-stream"

/-- The recognized media types of `DocumentProcessor.extract_text`. -/
def recognizedTypes : List String :=
  [mimePdf, mimeDocx, mimePptx, mimeXlsx, mimeText, mimeOctet]

/-- Embedding of `DocumentProcessor.extract_text`.  The source dispatches on
`file.type`; every branch runs inside one try/except, so a raised exception
from any parser is caught and turned into the string
`"Error processing file: " ++ message`.  An unrecognized type returns the
fixed marker `"Unsupported file format"` without consulting any parser. -/
def extract_text (file : UpFile) : String :=
  let attempt : Except String String :=
    if file.type = mimePdf then file.pdfExtract
    else if file.type = mimeDocx then file.docxExtract
    else if file.type = mimePptx then file.pptxExtract
    else if file.type = mimeXlsx then file.xlsxExtract
    else if file.type = mimeText ∨ file.type = mimeOctet then file.utf8Decode
    else Except.ok "Unsupported file format"
  match attempt with
  | Except.ok text => text
  | Except.error e => "Error processing file: " ++ e

/-- The metadata record returned by `DocumentProcessor.process_file`
(the `processing_time` field, pure wall-clock observability, is omitted). -/
structure ProcessedFile where
  filename : String
  size : Nat
  text_length : Nat
  content : String

/-- Embedding of `DocumentProcessor.process_file`: extract the text and
record filename, byte size, text length and the text itself. -/
def process_file (file : UpFile) : ProcessedFile :=
  let text := extract_text file
  { filename := file.name
    size := file.bytes.length
    text_length := text.length
    content := text }

/-- Model of the Python built-in `str.join`: the separator is placed between
consecutive elements only, with no leading or trailing separator, and the
join of the empty list is the empty string. -/
def pyJoin (sep : String) : List String → String
  | [] => ""
  | [s] => s
  | s :: t :: rest => s ++ sep ++ pyJoin sep (t :: rest)

/-- Embedding of the aggregation step of `main`: the content fields of the
processed files are joined, in order, with the two-newline separator. -/
def combined_text (processed : List ProcessedFile) : String :=
  pyJoin "\n\n" (processed.map ProcessedFile.content)

/-- Model of the Python built-in `str.strip()` with no argument: remove
leading and trailing whitespace characters.  The source uses it only in the
truth test `if not content.strip():`, which holds exactly when the content
is empty or consists solely of whitespace. -/
def pyStrip (s : String) : String :=
  String.mk (((s.data.dropWhile Char.isWhitespace).reverse.dropWhile
    Char.isWhitespace).reverse)

/-- Model of the Python f-string interpolation of an `Optional[str]` value:
`None` prints as the four characters `None`. -/
def formatOpt : Option String → String
  | none => "None"
  | some q => q

/-- Embedding of `DocumentProcessor.process_document`.  The LLM client is
the oracle `llm`, mapping the single user-message prompt to either the
response text of the first choice (`Except.ok`) or the message of a raised
exception / malformed-response failure (`Except.error`); the try/except of
the source converts the latter into the string
`"Error processing request: " ++ message`.  The Boolean component records
whether the chat-completion call was reached. -/
def process_document (llm : String → Except String String)
    (content : String) (task : String) (question : Option String) :
    String × Bool :=
  if pyStrip content = "" then ("No content to process", false)
  else
    let prompt_content : String :=
      if task = "summarize" then
        "Summarize the following content concisely:\n\n" ++ content
      else if task = "ask_question" then
        "Answer based on the content provided:\n\nContent:\n" ++ content ++
          "\n\nQuestion: " ++ formatOpt question
      else if task = "combine" then
        "Combine and sort the following content without losing details:\n\n"
          ++ content
      else "Invalid task"
    match llm prompt_content with
    | Except.ok response => (response, true)
    | Except.error e => ("Error processing request: " ++ e, true)

/-- Embedding of the dispatch portion of `main` (the body of the
`if uploaded_files:` block): every uploaded file is processed in order, the
contents are joined with one blank line, and the selected task is matched
against the three radio labels in source order.  The result is the rendered
response paired with the LLM-invocation flag; `none` models a task label
outside the radio set, for which `main` produces no response at all.
`main` passes the question of the Ask-Questions path as a plain string. -/
def run (llm : String → Except String String) (files : List UpFile)
    (task : String) (question : String) : Option (String × Bool) :=
  let processed := files.map process_file
  let corpus := combined_text processed
  if task = "Ask Questions" then
    some (process_document llm corpus "ask_question" (some question))
  else if task = "Summarize" then
    some (process_document llm corpus "summarize" none)
  else if task = "Combine" then
    some (corpus, false)
  else none

/-- A plain-text upload whose UTF-8 decode yields the given text; the
parser oracles of the formats that are never consulted on this file are
arbitrary. -/
def textFile (s : String) : UpFile :=
  { name := "file.txt"
    type := mimeText
    bytes := [116]
    pdfExtract := Except.error "unused"
    docxExtract := Except.error "unused"
    pptxExtract := Except.error "unused"
    xlsxExtract := Except.error "unused"
    utf8Decode := Except.ok s }

/-- An upload declared as PDF on which the PDF parser raises an exception
with the given message. -/
def badPdfFile (e : String) : UpFile :=
  { name := "bad.pdf"
    type := mimePdf
    bytes := [37, 80]
    pdfExtract := Except.error e
    docxExtract := Except.error "unused"
    pptxExtract := Except.error "unused"
    xlsxExtract := Except.error "unused"
    utf8Decode := Except.error "unused" }

/-- An upload whose declared media type is outside the recognized set. -/
def pngFile : UpFile :=
  { name := "pic.png"
    type := "image/png"
    bytes := [137]
    pdfExtract := Except.error "unused"
    docxExtract := Except.error "unused"
    pptxExtract := Except.error "unused"
    xlsxExtract := Except.error "unused"
    utf8Decode := Except.error "unused" }

/-- Claim C1: for every request with task kind Combine, the returned result
text equals the aggregated corpus verbatim, and the chat-completion call is
never made (the invocation flag of the result is false). -/
theorem combine_returns_corpus_without_llm
    (llm : String → Except String String) (files : List UpFile)
    (question : String) :
    run llm files "Combine" question =
      some (combined_text (files.map process_file), false) := rfl

/-- Claim C2 counterexample: aggregating the single document whose text is
hello world yields exactly hello world, with no trailing blank-line
separator, so the aggregated corpus is not the claimed text followed by a
blank line. -/
theorem single_document_corpus_no_trailing_separator :
    combined_text [process_file (textFile "hello world")] = "hello world" ∧
      ("hello world" : String) ≠ "hello world\n\n" :=
  ⟨rfl, by decide⟩

/-- Claim C2 (amended): aggregation concatenates the text fields in input
order with exactly one blank line between consecutive documents and no
trailing separator; in particular a single document whose text is
hello world aggregates to exactly hello world. -/
theorem aggregation_blank_line_between_only (d e : ProcessedFile)
    (ds : List ProcessedFile) :
    combined_text [] = "" ∧
      combined_text [d] = d.content ∧
      combined_text (d :: e :: ds) =
        d.content ++ "\n\n" ++ combined_text (e :: ds) ∧
      combined_text [process_file (textFile "hello world")] = "hello world" :=
  ⟨rfl, rfl, rfl, rfl⟩

/-- Claim C3 counterexample: with an empty question the dispatcher does not
reject the request and no InvalidRequest signal exists; it builds the
prompt whose question field is empty and invokes the LLM with it, as the
echo client exhibits (the flag true records that the chat-completion call
was made). -/
theorem empty_question_prompt_sent_to_llm :
    process_document (fun p => Except.ok p) "corpus" "ask_question"
        (some "") =
      ("Answer based on the content provided:\n\nContent:\ncorpus\n\nQuestion: ",
        true) := rfl

/-- Claim C3 (amended): the dispatcher performs no validation of the
question: for any question value, including the empty string and the
missing value (which prints as None), it builds the ask-question prompt
around that value and invokes the LLM, returning the response or the caught
error as the result. -/
theorem ask_question_never_validated (llm : String → Except String String)
    (corpus : String) (question : Option String)
    (h : pyStrip corpus ≠ "") :
    process_document llm corpus "ask_question" question =
      (match llm ("Answer based on the content provided:\n\nContent:\n" ++
          corpus ++ "\n\nQuestion: " ++ formatOpt question) with
        | Except.ok response => (response, true)
        | Except.error e => ("Error processing request: " ++ e, true)) := by
  unfold process_document
  rw [if_neg h]
  rfl

/-- Witness for ask_question_never_validated at the empty question, a
concrete corpus and an echo client. -/
theorem ask_question_never_validated_witness :
    process_document (fun p => Except.ok p) "body" "ask_question" (some "") =
      (match (fun p => (Except.ok p : Except String String))
          ("Answer based on the content provided:\n\nContent:\n" ++
            "body" ++ "\n\nQuestion: " ++ formatOpt (some "")) with
        | Except.ok response => (response, true)
        | Except.error e => ("Error processing request: " ++ e, true)) :=
  ask_question_never_validated (fun p => Except.ok p) "body" (some "")
    (by decide)

/-- Claim C4 counterexample: a Combine request over a whitespace-only
corpus returns the corpus itself, not the fixed no-content result (the LLM
is still not invoked). -/
theorem blank_combine_returns_corpus :
    run (fun _ => Except.error "offline") [textFile " "] "Combine" "" =
        some (" ", false) ∧
      (" " : String) ≠ "No content to process" :=
  ⟨rfl, by decide⟩

/-- Claim C4 (amended): for every Summarize or Ask-Questions request whose
aggregated corpus is empty or whitespace-only (the empty file list
included), the dispatcher returns the fixed no-content result and the LLM
is not invoked; a Combine request over such a corpus returns the corpus
itself verbatim, likewise without invoking the LLM. -/
theorem blank_corpus_skips_llm (llm : String → Except String String)
    (files : List UpFile) (question : String)
    (h : pyStrip (combined_text (files.map process_file)) = "") :
    run llm files "Summarize" question =
        some ("No content to process", false) ∧
      run llm files "Ask Questions" question =
        some ("No content to process", false) ∧
      run llm files "Combine" question =
        some (combined_text (files.map process_file), false) := by
  refine ⟨?_, ?_, rfl⟩ <;>
    simp [run, process_document, h]

/-- Witness for blank_corpus_skips_llm at the empty file list. -/
theorem blank_corpus_skips_llm_witness :
    run (fun _ => Except.error "offline") [] "Summarize" "" =
        some ("No content to process", false) ∧
      run (fun _ => Except.error "offline") [] "Ask Questions" "" =
        some ("No content to process", false) ∧
      run (fun _ => Except.error "offline") [] "Combine" "" =
        some (combined_text (([] : List UpFile).map process_file), false) :=
  blank_corpus_skips_llm (fun _ => Except.error "offline") [] "" (by decide)

/-- Claim C5: when the LLM client raises on invocation (modelled by a
client that raises with message e on every prompt), process_document
catches the failure and returns an ordinary result whose text is the
human-readable error message; no exception passes its boundary. -/
theorem llm_failure_returns_error_text (content task : String)
    (question : Option String) (e : String) (h : pyStrip content ≠ "") :
    process_document (fun _ => Except.error e) content task question =
      ("Error processing request: " ++ e, true) := by
  unfold process_document
  rw [if_neg h]

/-- Witness for llm_failure_returns_error_text on a concrete summarize
request whose client raises with message boom. -/
theorem llm_failure_returns_error_text_witness :
    process_document (fun _ => Except.error "boom") "body" "summarize" none =
      ("Error processing request: " ++ "boom", true) :=
  llm_failure_returns_error_text "body" "summarize" none "boom" (by decide)

/-- A plain-text upload on which the UTF-8 decode raises with the given
message. -/
def undecodableFile (e : String) : UpFile :=
  { name := "bin.txt"
    type := mimeText
    bytes := [255]
    pdfExtract := Except.error "unused"
    docxExtract := Except.error "unused"
    pptxExtract := Except.error "unused"
    xlsxExtract := Except.error "unused"
    utf8Decode := Except.error e }

/-- Claim C6: an exception raised while extracting one file of a batch, in
whichever of the five parser branches handles its declared media type (PDF,
Word, presentation, spreadsheet, or the UTF-8 decode of plain text and
octet stream), is caught at single-file granularity: that document carries
the failure message as its text (so aggregation sees a visible marker),
and every file before and after it in the batch is still processed exactly
as it would have been on its own. -/
theorem extraction_failure_isolated (pre post : List UpFile) (f : UpFile)
    (e : String)
    (h : (f.type = mimePdf ∧ f.pdfExtract = Except.error e) ∨
      (f.type = mimeDocx ∧ f.docxExtract = Except.error e) ∨
      (f.type = mimePptx ∧ f.pptxExtract = Except.error e) ∨
      (f.type = mimeXlsx ∧ f.xlsxExtract = Except.error e) ∨
      ((f.type = mimeText ∨ f.type = mimeOctet) ∧
        f.utf8Decode = Except.error e)) :
    (pre ++ f :: post).map process_file =
      pre.map process_file ++
        ({ filename := f.name
           size := f.bytes.length
           text_length := ("Error processing file: " ++ e).length
           content := "Error processing file: " ++ e } : ProcessedFile) ::
        post.map process_file := by
  have hext : extract_text f = "Error processing file: " ++ e := by
    rcases h with ⟨ht, hr⟩ | ⟨ht, hr⟩ | ⟨ht, hr⟩ | ⟨ht, hr⟩ | ⟨ht, hr⟩
    · simp [extract_text, ht, hr, mimePdf, mimeDocx, mimePptx, mimeXlsx,
        mimeText, mimeOctet]
    · simp [extract_text, ht, hr, mimePdf, mimeDocx, mimePptx, mimeXlsx,
        mimeText, mimeOctet]
    · simp [extract_text, ht, hr, mimePdf, mimeDocx, mimePptx, mimeXlsx,
        mimeText, mimeOctet]
    · simp [extract_text, ht, hr, mimePdf, mimeDocx, mimePptx, mimeXlsx,
        mimeText, mimeOctet]
    · rcases ht with ht | ht <;>
        simp [extract_text, ht, hr, mimePdf, mimeDocx, mimePptx, mimeXlsx,
          mimeText, mimeOctet]
  simp [List.map_append, process_file, hext]

/-- Witness for extraction_failure_isolated on a batch whose middle file is
plain text with a failing UTF-8 decode, preceded by a failing PDF and
followed by a healthy plain-text file. -/
theorem extraction_failure_isolated_witness :
    ([badPdfFile "bad page"] ++ undecodableFile "invalid byte" ::
        [textFile "ok"]).map process_file =
      [badPdfFile "bad page"].map process_file ++
        ({ filename := (undecodableFile "invalid byte").name
           size := (undecodableFile "invalid byte").bytes.length
           text_length := ("Error processing file: " ++ "invalid byte").length
           content := "Error processing file: " ++ "invalid byte" } :
          ProcessedFile) ::
        [textFile "ok"].map process_file :=
  extraction_failure_isolated [badPdfFile "bad page"] [textFile "ok"]
    (undecodableFile "invalid byte") "invalid byte"
    (Or.inr (Or.inr (Or.inr (Or.inr ⟨Or.inl rfl, rfl⟩))))

/-- Claim C7: for every file whose declared media type lies outside the
recognized set, extract_text returns the fixed human-readable
unsupported-format marker, which is not the empty string; since the result
holds for arbitrary parser oracles, no exception is involved. -/
theorem unrecognized_type_fixed_marker (f : UpFile)
    (h : f.type ∉ recognizedTypes) :
    extract_text f = "Unsupported file format" ∧
      ("Unsupported file format" : String) ≠ "" := by
  have h6 := by simpa [recognizedTypes] using h
  obtain ⟨h1, h2, h3, h4, h5, h6⟩ := h6
  refine ⟨?_, by decide⟩
  simp [extract_text, h1, h2, h3, h4, h5, h6]

/-- Witness for unrecognized_type_fixed_marker at a PNG upload. -/
theorem unrecognized_type_fixed_marker_witness :
    extract_text pngFile = "Unsupported file format" ∧
      ("Unsupported file format" : String) ≠ "" :=
  unrecognized_type_fixed_marker pngFile (by decide)

/-- Claim C8 counterexample: for the task value translate, outside the
closed set, process_document does produce a user-facing result: it sends
the prompt Invalid task to the LLM and returns the response of the client,
as the probing client exhibits. -/
theorem invalid_task_sent_to_llm :
    process_document (fun p => Except.ok ("response to: " ++ p)) "body"
        "translate" none =
      ("response to: Invalid task", true) := rfl

/-- Claim C8 (amended): for every task value outside the closed set of
summarize, ask_question and combine, process_document raises no
programming-error fault: it builds the fixed prompt Invalid task, invokes
the LLM with it, and returns the response (or the caught failure message)
as an ordinary user-facing result. -/
theorem unknown_task_sends_invalid_task_prompt
    (llm : String → Except String String) (content : String)
    (question : Option String) (task : String) (h : pyStrip content ≠ "")
    (h1 : task ≠ "summarize") (h2 : task ≠ "ask_question")
    (h3 : task ≠ "combine") :
    process_document llm content task question =
      (match llm "Invalid task" with
        | Except.ok response => (response, true)
        | Except.error e => ("Error processing request: " ++ e, true)) := by
  unfold process_document
  rw [if_neg h]
  simp only [if_neg h1, if_neg h2, if_neg h3]

/-- Witness for unknown_task_sends_invalid_task_prompt at the task value
translate with an echo client. -/
theorem unknown_task_sends_invalid_task_prompt_witness :
    process_document (fun p => Except.ok p) "body" "translate" none =
      (match (fun p => (Except.ok p : Except String String))
          "Invalid task" with
        | Except.ok response => (response, true)
        | Except.error e => ("Error processing request: " ++ e, true)) :=
  unknown_task_sends_invalid_task_prompt (fun p => Except.ok p) "body" none
    "translate" (by decide) (by decide) (by decide) (by decide)

/-- Claim C9 counterexample: two documents with distinct texts whose
aggregations in the two orders coincide, so order reversal does not always
change the output. -/
theorem order_swap_can_coincide :
    combined_text
        [⟨"a.txt", 0, 4, "a\n\na"⟩, ⟨"b.txt", 0, 1, "a"⟩] =
      combined_text
        [⟨"b.txt", 0, 1, "a"⟩, ⟨"a.txt", 0, 4, "a\n\na"⟩] ∧
      ("a\n\na" : String) ≠ "a" :=
  ⟨rfl, by decide⟩

/-- When two strings of equal length differ, swapping them around a common
middle changes the concatenation. -/
theorem append_swap_ne_of_length_eq (a b s : String)
    (hlen : a.length = b.length) (hne : a ≠ b) :
    a ++ s ++ b ≠ b ++ s ++ a := by
  intro h
  apply hne
  have hd : a.data ++ (s.data ++ b.data) = b.data ++ (s.data ++ a.data) := by
    have h2 := congrArg String.data h
    simpa [String.data_append, List.append_assoc] using h2
  exact String.ext (List.append_inj_left hd hlen)

/-- Claim C9 (amended): aggregation of the empty list is the empty string;
aggregation preserves input order, the two orders of a pair giving the
respective concatenations with one blank-line separator; and when the two
distinct texts have equal length the two outputs differ (they need not
differ for every distinct pair). -/
theorem aggregate_empty_and_order (A B : ProcessedFile) :
    combined_text [] = "" ∧
      combined_text [A, B] = A.content ++ "\n\n" ++ B.content ∧
      combined_text [B, A] = B.content ++ "\n\n" ++ A.content ∧
      (A.content.length = B.content.length → A.content ≠ B.content →
        combined_text [A, B] ≠ combined_text [B, A]) := by
  refine ⟨rfl, rfl, rfl, ?_⟩
  intro hlen hne
  exact append_swap_ne_of_length_eq A.content B.content "\n\n" hlen hne

/-- Witness for aggregate_empty_and_order on documents with the distinct
equal-length texts x and y. -/
theorem aggregate_empty_and_order_witness :
    combined_text [⟨"a.txt", 0, 1, "x"⟩, ⟨"b.txt", 0, 1, "y"⟩] ≠
      combined_text [⟨"b.txt", 0, 1, "y"⟩, ⟨"a.txt", 0, 1, "x"⟩] :=
  (aggregate_empty_and_order ⟨"a.txt", 0, 1, "x"⟩
    ⟨"b.txt", 0, 1, "y"⟩).2.2.2 (by decide) (by decide)

/-- Claim C10: the metadata record of process_file is internally consistent:
text_length equals the length of the content field, and size equals the
length of the raw bytes of the file. -/
theorem process_file_metadata_consistent (f : UpFile) :
    (process_file f).text_length = (process_file f).content.length ∧
      (process_file f).size = f.bytes.length :=
  ⟨rfl, rfl⟩

end App
